import Mathlib

/-!
Verification development for the annotation-based tool filtering and
parameter-coercion layer of `src/agents/utils/filtered_mcp_tools.py`
(`FilteredMCPTools`).

The embedding is shallow: Python values are modelled by the closed inductive
type `PyVal` (per the data model of the spec, annotation values are scalars or
lists of scalars; mappings are string-keyed, which is all the code consumes:
keyword-argument mappings and JSON schemas). Python `float` values are
modelled as exact rationals: no claim in scope depends on rounding.
Fallible Python expressions are modelled with `Except String`, the error
payload standing for the raised exception.
-/

set_option maxHeartbeats 1000000

namespace FilteredMCP

/-- A Python value as consumed by `filtered_mcp_tools.py`: `None`, booleans,
integers, floats (modelled exactly as rationals), strings, lists and
string-keyed mappings. -/
inductive PyVal where
  | none
  | bool (b : Bool)
  | int (n : Int)
  | float (q : ℚ)
  | str (s : String)
  | list (xs : List PyVal)
  | dict (kvs : List (String × PyVal))

mutual

/-- Structural equality on `PyVal`, modelling Python `==` on the closed value
set in scope (numeric cross-type equalities such as `True == 1` are not
exercised by any property here). -/
def PyVal.beq : PyVal → PyVal → Bool
  | .none, .none => true
  | .bool a, .bool b => a == b
  | .int a, .int b => a == b
  | .float a, .float b => a == b
  | .str a, .str b => a == b
  | .list xs, .list ys => pyBeqList xs ys
  | .dict xs, .dict ys => pyBeqDict xs ys
  | _, _ => false

/-- Elementwise equality of value lists. -/
def pyBeqList : List PyVal → List PyVal → Bool
  | [], [] => true
  | x :: xs, y :: ys => PyVal.beq x y && pyBeqList xs ys
  | _, _ => false

/-- Entrywise equality of mappings (insertion-ordered association lists). -/
def pyBeqDict : List (String × PyVal) → List (String × PyVal) → Bool
  | [], [] => true
  | (k1, v1) :: xs, (k2, v2) :: ys => k1 == k2 && PyVal.beq v1 v2 && pyBeqDict xs ys
  | _, _ => false

end

instance : BEq PyVal := ⟨PyVal.beq⟩

/-- Unfolding lemma for `==` on `PyVal`. -/
theorem PyVal.beq_def (a b : PyVal) : (a == b) = PyVal.beq a b := rfl

/-- Whether a value is a Python `list` (`isinstance(value, list)`). -/
def PyVal.isList : PyVal → Bool
  | .list _ => true
  | _ => false

/-- Whether a value is a Python `str` (`isinstance(value, str)`). -/
def PyVal.isStr : PyVal → Bool
  | .str _ => true
  | _ => false

/-- Whether a value is Python `None` (the identity test `value is None`). -/
def PyVal.isNone : PyVal → Bool
  | .none => true
  | _ => false

/-- Python truthiness (`bool(value)`) on the modelled values. -/
def pyBool : PyVal → Bool
  | .none => false
  | .bool b => b
  | .int n => decide (n ≠ 0)
  | .float q => decide (q ≠ 0)
  | .str s => decide (s ≠ "")
  | .list xs => !xs.isEmpty
  | .dict kvs => !kvs.isEmpty

mutual

/-- Python `str(value)` on the modelled values. Collection rendering is
approximate (element quoting of `repr` and float formatting are not
modelled); no property in scope depends on the rendered text. -/
def pyStr : PyVal → String
  | .none => "None"
  | .bool true => "True"
  | .bool false => "False"
  | .int n => toString n
  | .float q => toString q
  | .str s => s
  | .list xs => "[" ++ pyStrList xs ++ "]"
  | .dict kvs => "\x7b" ++ pyStrDict kvs ++ "\x7d"

/-- Comma-separated rendering of list elements. -/
def pyStrList : List PyVal → String
  | [] => ""
  | [x] => pyStr x
  | x :: y :: xs => pyStr x ++ ", " ++ pyStrList (y :: xs)

/-- Comma-separated rendering of mapping entries. -/
def pyStrDict : List (String × PyVal) → String
  | [] => ""
  | [(k, v)] => k ++ ": " ++ pyStr v
  | (k, v) :: e :: xs => k ++ ": " ++ pyStr v ++ ", " ++ pyStrDict (e :: xs)

end

/-- Strip leading and trailing whitespace from a character list, as the
Python numeric constructors do on their string argument. -/
def stripWs (cs : List Char) : List Char :=
  ((cs.dropWhile Char.isWhitespace).reverse.dropWhile Char.isWhitespace).reverse

/-- Consume an optional leading sign; returns (negative?, rest). -/
def parseSign : List Char → Bool × List Char
  | '-' :: rest => (true, rest)
  | '+' :: rest => (false, rest)
  | cs => (false, cs)

/-- A non-empty run of decimal digits. -/
def isDigits (cs : List Char) : Bool :=
  !cs.isEmpty && cs.all Char.isDigit

/-- Value of a digit run. -/
def digitsToNat (cs : List Char) : Nat :=
  cs.foldl (fun a c => a * 10 + (c.toNat - 48)) 0

/-- Python `int(s)` on a string: optional surrounding whitespace, optional
sign, then decimal digits; anything else raises `ValueError` (`Option.none`
here). Numeric-literal underscores are not modelled. -/
def pyIntOfString (s : String) : Option Int :=
  let cs := stripWs s.data
  let sr := parseSign cs
  if isDigits sr.2 then
    some (if sr.1 then -(digitsToNat sr.2 : Int) else (digitsToNat sr.2 : Int))
  else
    Option.none

/-- Python `float(s)` on a string: optional surrounding whitespace, optional
sign, decimal mantissa with optional fractional part, optional decimal
exponent. The value is returned as an exact rational; `inf`/`nan` literals
and numeric-literal underscores are not modelled. `Option.none` models a
raised `ValueError`. -/
def pyFloatOfString (s : String) : Option ℚ :=
  let cs := stripWs s.data
  let sr := parseSign cs
  let mant := sr.2.takeWhile (fun c => c ≠ 'e' && c ≠ 'E')
  let expPart := sr.2.drop mant.length
  let exp? : Option Int :=
    match expPart with
    | [] => some 0
    | _ :: rest =>
      let er := parseSign rest
      if isDigits er.2 then
        some (if er.1 then -(digitsToNat er.2 : Int) else (digitsToNat er.2 : Int))
      else
        Option.none
  match exp? with
  | Option.none => Option.none
  | some e =>
    let intPart := mant.takeWhile (fun c => c ≠ '.')
    let dotFrac := mant.drop intPart.length
    let frac := dotFrac.drop 1
    let shapeOk :=
      match dotFrac with
      | [] => isDigits intPart
      | '.' :: _ =>
        intPart.all Char.isDigit && frac.all Char.isDigit &&
          (!intPart.isEmpty || !frac.isEmpty)
      | _ => false
    if shapeOk then
      let mag : ℚ :=
        ((digitsToNat intPart : ℚ) + (digitsToNat frac : ℚ) / (10 : ℚ) ^ frac.length) *
          (10 : ℚ) ^ e
      some (if sr.1 then -mag else mag)
    else
      Option.none

/-- Python `list(value)` on a non-list value: strings iterate into their
characters, mappings into their keys; `None`, booleans and numbers are not
iterable and raise `TypeError` (modelled by `Except.error`). A list is
returned as-is (the source only reaches this call on non-lists). -/
def pyList : PyVal → Except String (List PyVal)
  | .list xs => .ok xs
  | .str s => .ok (s.data.map (fun c => PyVal.str (String.mk [c])))
  | .dict kvs => .ok (kvs.map (fun kv => PyVal.str kv.1))
  | _ => .error "TypeError: object is not iterable"

/-- Python `dict(value)` on a non-mapping value: accepts a list of
(string-keyed) key/value pairs; everything else raises
`ValueError`/`TypeError` (modelled by `Except.error`). -/
def pyDict : PyVal → Except String (List (String × PyVal))
  | .dict kvs => .ok kvs
  | .list xs =>
    xs.mapM (fun x =>
      match x with
      | .list [.str k, v] => Except.ok (k, v)
      | _ => Except.error "cannot convert sequence element to a key/value pair")
  | _ => .error "TypeError: object is not convertible to dict"

/-- One property entry of a tool's JSON `inputSchema`: the declared `type`
string when present (`prop_schema.get("type")`). Other schema fields are not
consumed by the coercion code and are omitted. -/
structure PropSchema where
  type? : Option String
  deriving DecidableEq

/-- A tool's JSON `inputSchema`. `properties? = Option.none` models both a
falsy schema and a schema without a `"properties"` key (the two cases the
source guard `if not schema or "properties" not in schema` collapses). -/
structure Schema where
  properties? : Option (List (String × PropSchema))
  deriving DecidableEq

/-- The body of the `try` in `_coerce_parameters` (lines 248-268): coercion
of one supplied value to one declared schema type. `Except.error` models a
raised `ValueError`/`TypeError`, which are exactly the exceptions the
source's `except (ValueError, TypeError)` catches. -/
def coerce_value (prop_type : String) (value : PyVal) : Except String PyVal :=
  if prop_type == "number" || prop_type == "integer" then
    match value with
    | .str s =>
      if prop_type == "integer" then
        match pyIntOfString s with
        | some n => .ok (.int n)
        | Option.none => .error ("invalid literal for int with base 10: " ++ s)
      else
        match pyFloatOfString s with
        | some q => .ok (.float q)
        | Option.none => .error ("could not convert string to float: " ++ s)
    | v => .ok v
  else if prop_type == "boolean" then
    match value with
    | .str s => .ok (.bool (["true", "1", "yes"].contains s.toLower))
    | v => .ok (.bool (pyBool v))
  else if prop_type == "string" then
    match value with
    | .str s => .ok (.str s)
    | v => .ok (.str (pyStr v))
  else if prop_type == "array" then
    match value with
    | .list xs => .ok (.list xs)
    | v => (pyList v).map PyVal.list
  else if prop_type == "object" then
    match value with
    | .dict kvs => .ok (.dict kvs)
    | v => (pyDict v).map PyVal.dict
  else
    .ok value

/-- The per-parameter step of `_coerce_parameters` over one `(key, value)`
entry: returns the coerced entry together with the messages passed to
`self.log` for it (the diagnostic channel; the success-side message is only
produced under `debug_filtering`, mirroring line 270, while the
coercion-failure message of line 277 is passed to `self.log`
unconditionally). Exception text is not reproduced in the messages. -/
def coerce_param (debug_filtering : Bool) (properties : List (String × PropSchema))
    (key : String) (value : PyVal) : PyVal × List String :=
  match properties.lookup key with
  | Option.none => (value, [])
  | some prop_schema =>
    match prop_schema.type? with
    | Option.none => (value, [])
    | some prop_type =>
      if prop_type == "" || value.isNone then (value, [])
      else
        match coerce_value prop_type value with
        | .ok v2 =>
          if debug_filtering && v2 != value then
            (v2, ["Parameter coercion: " ++ key])
          else
            (v2, [])
        | .error _ => (value, ["Failed to coerce parameter " ++ key])

/-- Embedding of `_coerce_parameters` (lines 217-280): coerce every supplied parameter
according to the schema's `properties`, passing unknown keys, untyped
properties and `None` values through unchanged. The second component is the
ordered list of messages passed to `self.log`; the function is total — a
coercion failure never aborts the call. -/
def coerce_parameters (debug_filtering : Bool) (params : List (String × PyVal))
    (schema : Schema) : List (String × PyVal) × List String :=
  match schema.properties? with
  | Option.none => (params, [])
  | some properties =>
    params.foldl
      (fun acc kv =>
        let r := coerce_param debug_filtering properties kv.1 kv.2
        (acc.1 ++ [(kv.1, r.1)], acc.2 ++ r.2))
      ([], [])

/-- A filter rule, the value side of one `annotation_filters` entry. The
source dispatches on the runtime shape of the configured value
(`callable(...)`, `isinstance(..., list)`, otherwise scalar); the embedding
makes that dispatch a closed tagged type, as the spec's design notes
prescribe. A predicate may raise (`Except.error`). -/
inductive FilterRule where
  | value (v : PyVal)
  | anyOf (vs : List PyVal)
  | pred (f : PyVal → Except String Bool)

/-- An MCP tool descriptor as read by the filtering code. `annotations`
models the attribute access `tool.annotations`: `Except.error` is an access
that raises, `Except.ok Option.none` is a missing attribute or a `None`
value, and `Except.ok (some kvs)` is an annotations object with the given
key/value entries (an empty `kvs` is a falsy annotations object). -/
structure Tool where
  name : String
  description : String
  inputSchema : Schema
  annotations : Except String (Option (List (String × PyVal)))

/-- Embedding of `_get_annotation_value` (lines 128-144): extract one annotation value
from a tool, returning `None` when the tool has no annotations attribute,
the annotations object is falsy, the key is absent, or access raises. -/
def get_annotation_value (tool : Tool) (annotation_key : String) : PyVal :=
  match tool.annotations with
  | .error _ => .none
  | .ok Option.none => .none
  | .ok (some anns) =>
    if anns.isEmpty then .none
    else (anns.lookup annotation_key).getD .none

/-- Whether two lists share at least one element: `bool(set(xs) & set(ys))`
on lists of (hashable) values. -/
def list_intersects (xs ys : List PyVal) : Bool :=
  xs.any (fun x => ys.contains x)

/-- Embedding of `_annotation_value_matches_filter` (lines 146-177): a callable rule is
applied with any raised error counted as non-match; a list rule intersects
with a list-typed annotation value and tests membership otherwise; a scalar
rule is an exact-equality test. -/
def annotation_value_matches_filter (annotation_value : PyVal) (filter_value : FilterRule) : Bool :=
  match filter_value with
  | .pred f =>
    match f annotation_value with
    | .ok b => b
    | .error _ => false
  | .anyOf vs =>
    match annotation_value with
    | .list xs => list_intersects xs vs
    | v => vs.contains v
  | .value v => annotation_value == v

/-- The filtering configuration of a `FilteredMCPTools` instance, after
construction-time normalization: the optional legacy whole-tool custom
filter (which may raise), the annotation filter specification, and the
standard include/exclude tool-name lists. -/
structure Config where
  custom_filter : Option (Tool → Except String Bool)
  annotation_filters : List (String × FilterRule)
  include_tools : Option (List String)
  exclude_tools : Option (List String)

/-- Embedding of `_should_include_tool` (lines 179-215): the custom filter runs first,
with a falsy result or a raised error rejecting the tool; then every
annotation-filter entry must match the tool's extracted annotation value. -/
def should_include_tool (custom_filter : Option (Tool → Except String Bool))
    (annotation_filters : List (String × FilterRule)) (tool : Tool) : Bool :=
  let anns_pass := annotation_filters.all
    (fun kv => annotation_value_matches_filter (get_annotation_value tool kv.1) kv.2)
  match custom_filter with
  | Option.none => anns_pass
  | some f =>
    match f tool with
    | .error _ => false
    | .ok b => if b then anns_pass else false

/-- The legacy `toolsets` constructor argument: a single tag or a list. -/
inductive ToolsetsArg where
  | single (s : String)
  | many (ss : List String)

/-- The constructor-time normalization of `__init__` (lines 74-88):
supplying both `toolsets` and `annotation_filters` raises a `ValueError`;
a legacy `toolsets` value becomes a `toolsets` list rule; supplying neither
yields the empty specification. -/
def init_annotation_filters (annotation_filters : Option (List (String × FilterRule)))
    (toolsets : Option ToolsetsArg) : Except String (List (String × FilterRule)) :=
  match annotation_filters, toolsets with
  | some _, some _ =>
    .error "Cannot specify both toolsets and annotation_filters."
  | some af, Option.none => .ok af
  | Option.none, some ts =>
    let ls := match ts with | .single s => [s] | .many ss => ss
    .ok [("toolsets", .anyOf (ls.map PyVal.str))]
  | Option.none, Option.none => .ok []

/-- The per-name include/exclude decision applied to the annotation-filtered
catalogue (lines 336-341): a truthy exclude-list containing the name drops
the tool; otherwise the tool is kept iff the include-list is unset or
contains the name. -/
def keep_by_name (include_tools exclude_tools : Option (List String)) (n : String) : Bool :=
  if (match exclude_tools with
      | some ex => !ex.isEmpty && ex.contains n
      | Option.none => false) then
    false
  else
    match include_tools with
    | Option.none => true
    | some inc => inc.contains n

/-- One entry of the published action registry, the data fields of the agno
`Function` built at lines 386-393 (name, description and the tool's input
schema; the coercing entrypoint closure is not reified as registry data —
its behaviour is `coerce_parameters` followed by the session call). -/
structure RegisteredFunction where
  name : String
  description : String
  parameters : Schema

/-- The `Function` record built for one tool. -/
def mkFunction (t : Tool) : RegisteredFunction :=
  ⟨t.name, t.description, t.inputSchema⟩

/-- Python dict assignment `functions[k] = v` on an insertion-ordered
association list: overwrite in place when the key exists, append otherwise. -/
def dict_set (fns : List (String × RegisteredFunction)) (k : String)
    (v : RegisteredFunction) : List (String × RegisteredFunction) :=
  if fns.any (fun kv => kv.1 == k) then
    fns.map (fun kv => if kv.1 == k then (k, v) else kv)
  else
    fns ++ [(k, v)]

/-- The remote session as `initialize` consumes it: `session.initialize()`
and `session.list_tools()`, each of which may raise. -/
structure Session where
  init_result : Except String Unit
  list_tools_result : Except String (List Tool)

/-- The external collaborators `initialize` calls into: the optional session
object, the inherited `_check_tools_filters` validation (agno framework
code, external to this repository; it may raise), and
`get_entrypoint_for_tool` together with the per-tool `Function` construction
(external; may raise per tool). -/
structure Env where
  session : Option Session
  check_tools_filters : List String → Option (List String) → Option (List String) →
    Except String Unit
  get_entrypoint_for_tool : Tool → Except String Unit

/-- The mutable instance state `initialize` reads and writes: the
`_initialized` flag and the published `functions` registry. -/
structure ToolsState where
  initialized : Bool
  functions : List (String × RegisteredFunction)

/-- The remote calls an `initialize` run performs, in order. -/
inductive SessionOp where
  | sessionInit
  | listTools
  deriving DecidableEq

/-- Result of one `initialize` call: the outcome (`Except.error` models the
re-raised exception), the instance state after the call, and the trace of
remote session calls performed. -/
structure InitResult where
  outcome : Except String Unit
  state : ToolsState
  ops : List SessionOp

/-- Embedding of `initialize` (lines 282-405): a no-op when already initialized;
otherwise require a session, initialize it, fetch the catalogue, apply the
annotation filter, run the inherited include/exclude validation, apply the
include/exclude name filter, then register one `Function` per surviving tool
— a per-tool build failure is caught and that tool skipped (lines 398-399),
while any other error aborts the pass, leaves the state untouched and is
re-raised (lines 403-405). -/
def initialize_fn (cfg : Config) (env : Env) (st : ToolsState) : InitResult :=
  if st.initialized then ⟨.ok (), st, []⟩
  else
    match env.session with
    | Option.none => ⟨.error "Failed to establish session connection", st, []⟩
    | some s =>
      match s.init_result with
      | .error e => ⟨.error e, st, [.sessionInit]⟩
      | .ok () =>
        match s.list_tools_result with
        | .error e => ⟨.error e, st, [.sessionInit, .listTools]⟩
        | .ok tools =>
          let annotation_filtered_tools :=
            tools.filter (should_include_tool cfg.custom_filter cfg.annotation_filters)
          match env.check_tools_filters (annotation_filtered_tools.map Tool.name)
              cfg.include_tools cfg.exclude_tools with
          | .error e => ⟨.error e, st, [.sessionInit, .listTools]⟩
          | .ok () =>
            let final_filtered_tools := annotation_filtered_tools.filter
              (fun t => keep_by_name cfg.include_tools cfg.exclude_tools t.name)
            let fns := final_filtered_tools.foldl
              (fun fns t =>
                match env.get_entrypoint_for_tool t with
                | .error _ => fns
                | .ok () => dict_set fns t.name (mkFunction t))
              st.functions
            ⟨.ok (), ⟨true, fns⟩, [.sessionInit, .listTools]⟩

/-! ### Example fixtures shared by the concrete instantiations below -/

/-- An example tool without annotations. -/
def toolA : Tool := ⟨"A", "describe A", ⟨Option.none⟩, .ok Option.none⟩

/-- A second example tool without annotations. -/
def toolB : Tool := ⟨"B", "describe B", ⟨Option.none⟩, .ok Option.none⟩

/-- A third example tool without annotations. -/
def toolC : Tool := ⟨"C", "describe C", ⟨Option.none⟩, .ok Option.none⟩

/-- A configuration with no filtering at all. -/
def cfg0 : Config := ⟨Option.none, [], Option.none, Option.none⟩

/-- An environment whose session fails the catalogue fetch. -/
def envListFail : Env :=
  ⟨some ⟨.ok (), .error "boom"⟩, fun _ _ _ => .ok (), fun _ => .ok ()⟩

/-- An environment whose session succeeds with an empty catalogue. -/
def envEmptyOk : Env :=
  ⟨some ⟨.ok (), .ok []⟩, fun _ _ _ => .ok (), fun _ => .ok ()⟩

/-- A per-tool builder that fails exactly on tool name "B". -/
def buildFailB (t : Tool) : Except String Unit :=
  if t.name == "B" then .error "boom" else .ok ()

/-! ### Claims -/

/-- C10: with no custom predicate and an empty annotation filter
specification (in particular when neither `annotation_filters` nor the
legacy `toolsets` was supplied at construction, which normalizes to the
empty specification), the inclusion decision is true for every tool and
annotation filtering is the identity on the catalogue. -/
theorem C10_empty_spec_is_identity :
    init_annotation_filters Option.none Option.none = .ok []
    ∧ (∀ tool : Tool, should_include_tool Option.none [] tool = true)
    ∧ ∀ tools : List Tool, tools.filter (should_include_tool Option.none []) = tools := by
  refine ⟨rfl, fun tool => rfl, fun tools => ?_⟩
  simp [should_include_tool]

/-- C9: annotation-value extraction is total (it returns a value, never
raises) and yields `None` whenever the annotations attribute raises on
access, is absent or `None`, is a falsy (empty) annotations object, or lacks
the requested key; an actually present annotation yields its value. -/
theorem C9_annotation_extraction_total :
    (∀ (t : Tool) (k e : String), t.annotations = .error e →
        get_annotation_value t k = .none)
    ∧ (∀ (t : Tool) (k : String), t.annotations = .ok Option.none →
        get_annotation_value t k = .none)
    ∧ (∀ (t : Tool) (k : String), t.annotations = .ok (some []) →
        get_annotation_value t k = .none)
    ∧ (∀ (t : Tool) (k : String) (anns : List (String × PyVal)),
        t.annotations = .ok (some anns) → anns.lookup k = Option.none →
        get_annotation_value t k = .none)
    ∧ (∀ (t : Tool) (k : String) (anns : List (String × PyVal)) (v : PyVal),
        t.annotations = .ok (some anns) → anns.lookup k = some v →
        get_annotation_value t k = v) := by
  refine ⟨?_, ?_, ?_, ?_, ?_⟩
  · intro t k e h; simp [get_annotation_value, h]
  · intro t k h; simp [get_annotation_value, h]
  · intro t k h; simp [get_annotation_value, h]
  · intro t k anns h hl; simp [get_annotation_value, h, hl]
  · intro t k anns v h hl
    cases anns with
    | nil => simp at hl
    | cons hd tl => simp [get_annotation_value, h, hl]

/-- Closed instantiation of `C9_annotation_extraction_total` at concrete
tools. -/
theorem C9_witness :
    get_annotation_value ⟨"t", "d", ⟨Option.none⟩,
        .ok (some [("toolsets", .str "perf")])⟩ "toolsets" = .str "perf"
    ∧ get_annotation_value ⟨"t", "d", ⟨Option.none⟩, .error "AttributeError"⟩ "toolsets"
        = .none :=
  ⟨C9_annotation_extraction_total.2.2.2.2 _ "toolsets" _ (.str "perf") rfl rfl,
   C9_annotation_extraction_total.1 _ "toolsets" "AttributeError" rfl⟩

/-- C3: rule matching semantics — a scalar rule matches exactly on equality;
a list rule against a list-typed annotation value matches iff the two share
at least one element (so `toolsets ["a","b"]` accepts annotation
`["b","c"]` and rejects `["c","d"]`); a list rule against a non-list
annotation value matches iff the value is a member of the rule list. -/
theorem C3_rule_matching_semantics :
    (∀ v r : PyVal, annotation_value_matches_filter v (.value r) = (v == r))
    ∧ (∀ xs rs : List PyVal,
        annotation_value_matches_filter (.list xs) (.anyOf rs) = true
          ↔ ∃ x ∈ xs, rs.contains x = true)
    ∧ (∀ (v : PyVal) (rs : List PyVal), v.isList = false →
        annotation_value_matches_filter v (.anyOf rs) = rs.contains v)
    ∧ annotation_value_matches_filter (.list [.str "b", .str "c"])
        (.anyOf [.str "a", .str "b"]) = true
    ∧ annotation_value_matches_filter (.list [.str "c", .str "d"])
        (.anyOf [.str "a", .str "b"]) = false := by
  refine ⟨fun v r => rfl, ?_, ?_, ?_, ?_⟩
  · intro xs rs
    simp [annotation_value_matches_filter, list_intersects, List.any_eq_true]
  · intro v rs h
    cases v <;> simp_all [annotation_value_matches_filter, PyVal.isList]
  · simp [annotation_value_matches_filter, list_intersects, PyVal.beq_def, PyVal.beq]
  · simp [annotation_value_matches_filter, list_intersects, PyVal.beq_def, PyVal.beq]

/-- Closed instantiation of `C3_rule_matching_semantics` at a non-list
annotation value. -/
theorem C3_witness :
    annotation_value_matches_filter (.str "a") (.anyOf [.str "a", .str "b"])
      = List.contains [PyVal.str "a", PyVal.str "b"] (PyVal.str "a") :=
  C3_rule_matching_semantics.2.2.1 (.str "a") [.str "a", .str "b"] rfl

/-- C2: the inclusion decision never propagates an exception — a raised
error from the custom predicate rejects the tool (fail-closed), a raised
error from a predicate rule makes that rule a non-match, and a tool whose
annotation value makes some predicate rule raise is excluded rather than
the error escaping the filter (the decision functions are total by type). -/
theorem C2_no_exception_escapes :
    (∀ (fl : List (String × FilterRule)) (tool : Tool)
        (f : Tool → Except String Bool) (e : String),
        f tool = .error e → should_include_tool (some f) fl tool = false)
    ∧ (∀ (v : PyVal) (f : PyVal → Except String Bool) (e : String),
        f v = .error e → annotation_value_matches_filter v (.pred f) = false)
    ∧ (∀ (cf : Option (Tool → Except String Bool)) (fl : List (String × FilterRule))
        (tool : Tool) (k e : String) (f : PyVal → Except String Bool),
        (k, FilterRule.pred f) ∈ fl → f (get_annotation_value tool k) = .error e →
        should_include_tool cf fl tool = false) := by
  refine ⟨?_, ?_, ?_⟩
  · intro fl tool f e h; simp [should_include_tool, h]
  · intro v f e h; simp [annotation_value_matches_filter, h]
  · intro cf fl tool k e f hmem herr
    have hfalse : (fl.all fun kv =>
        annotation_value_matches_filter (get_annotation_value tool kv.1) kv.2) = false := by
      rw [List.all_eq_false]
      exact ⟨(k, .pred f), hmem, by simp [annotation_value_matches_filter, herr]⟩
    rcases cf with _ | f2
    · simpa [should_include_tool] using hfalse
    · cases h2 : f2 tool with
      | error e2 => simp [should_include_tool, h2]
      | ok b => cases b <;> simp [should_include_tool, h2, hfalse]

/-- Closed instantiation of `C2_no_exception_escapes` with throwing
predicates. -/
theorem C2_witness :
    should_include_tool (some fun _ => .error "boom") [] toolA = false
    ∧ annotation_value_matches_filter (.int 1) (.pred fun _ => .error "boom") = false
    ∧ should_include_tool Option.none [("k", .pred fun _ => .error "boom")] toolA = false :=
  ⟨C2_no_exception_escapes.1 [] toolA _ "boom" rfl,
   C2_no_exception_escapes.2.1 (.int 1) _ "boom" rfl,
   C2_no_exception_escapes.2.2 Option.none _ toolA "k" "boom" _ (List.mem_singleton.mpr rfl) rfl⟩

/-- C5: on the annotation-filtered catalogue, a set exclude-list containing
the name excludes the tool even when the include-list contains it; a set
include-list lacking the name excludes the tool; otherwise the tool is kept.
With include `["x","y"]` and exclude `["y"]`: "y" excluded, "x" included,
"z" excluded. -/
theorem C5_exclude_wins_over_include :
    (∀ (inc? : Option (List String)) (ex : List String) (n : String),
        n ∈ ex → keep_by_name inc? (some ex) n = false)
    ∧ (∀ (ex? : Option (List String)) (inc : List String) (n : String),
        n ∉ inc → keep_by_name (some inc) ex? n = false)
    ∧ (∀ (inc? ex? : Option (List String)) (n : String),
        (∀ ex, ex? = some ex → n ∉ ex) →
        (∀ inc, inc? = some inc → n ∈ inc) →
        keep_by_name inc? ex? n = true)
    ∧ keep_by_name (some ["x", "y"]) (some ["y"]) "y" = false
    ∧ keep_by_name (some ["x", "y"]) (some ["y"]) "x" = true
    ∧ keep_by_name (some ["x", "y"]) (some ["y"]) "z" = false := by
  refine ⟨?_, ?_, ?_, by decide, by decide, by decide⟩
  · intro inc? ex n h
    have hne : ex ≠ [] := List.ne_nil_of_mem h
    simp [keep_by_name, List.isEmpty_eq_false.mpr hne, h]
  · intro ex? inc n h
    rcases ex? with _ | ex <;> simp [keep_by_name, h]
  · intro inc? ex? n hex hinc
    rcases ex? with _ | ex
    · rcases inc? with _ | inc
      · simp [keep_by_name]
      · simp [keep_by_name, hinc inc rfl]
    · rcases inc? with _ | inc
      · simp [keep_by_name, hex ex rfl]
      · simp [keep_by_name, hex ex rfl, hinc inc rfl]

/-- Closed instantiation of `C5_exclude_wins_over_include` at the spec's
example lists. -/
theorem C5_witness :
    keep_by_name (some ["x", "y"]) (some ["y"]) "y" = false
    ∧ keep_by_name Option.none (some ["y"]) "x" = true :=
  ⟨C5_exclude_wins_over_include.1 (some ["x", "y"]) ["y"] "y" (by decide),
   C5_exclude_wins_over_include.2.2.1 Option.none (some ["y"]) "x"
     (by intro ex hex; cases hex; decide) (by intro inc h; cases h)⟩

/-- C6: for a parameter declared `integer` or `number`, a supplied string is
parsed (integral parse for `integer`, real parse for `number`); a non-string
value passes through unchanged; on parse failure the original value passes
through unchanged with a coercion-failure diagnostic recorded, and the call
is never aborted (the result is a total value, never a raised error). -/
theorem C6_numeric_string_coercion :
    (∀ k s : String,
        coerce_parameters false [(k, .str s)] ⟨some [(k, ⟨some "integer"⟩)]⟩
          = match pyIntOfString s with
            | some n => ([(k, PyVal.int n)], [])
            | Option.none => ([(k, PyVal.str s)], ["Failed to coerce parameter " ++ k]))
    ∧ (∀ k s : String,
        coerce_parameters false [(k, .str s)] ⟨some [(k, ⟨some "number"⟩)]⟩
          = match pyFloatOfString s with
            | some q => ([(k, PyVal.float q)], [])
            | Option.none => ([(k, PyVal.str s)], ["Failed to coerce parameter " ++ k]))
    ∧ (∀ (k : String) (v : PyVal), v.isStr = false →
        (coerce_parameters false [(k, v)] ⟨some [(k, ⟨some "integer"⟩)]⟩).1 = [(k, v)]
        ∧ (coerce_parameters false [(k, v)] ⟨some [(k, ⟨some "number"⟩)]⟩).1 = [(k, v)])
    ∧ coerce_parameters false [("n", .str "42")] ⟨some [("n", ⟨some "integer"⟩)]⟩
        = ([("n", PyVal.int 42)], [])
    ∧ coerce_parameters false [("n", .str "abc")] ⟨some [("n", ⟨some "integer"⟩)]⟩
        = ([("n", PyVal.str "abc")], ["Failed to coerce parameter n"]) := by
  refine ⟨?_, ?_, ?_, by rfl, by rfl⟩
  · intro k s
    simp only [coerce_parameters, List.foldl, coerce_param, List.lookup,
      beq_self_eq_true, if_true, coerce_value, PyVal.isNone]
    cases h : pyIntOfString s <;> simp [h]
  · intro k s
    simp only [coerce_parameters, List.foldl, coerce_param, List.lookup,
      beq_self_eq_true, if_true, coerce_value, PyVal.isNone]
    cases h : pyFloatOfString s <;> simp [h]
  · intro k v h
    constructor <;>
    · simp only [coerce_parameters, List.foldl, coerce_param, List.lookup,
        beq_self_eq_true, if_true, coerce_value, PyVal.isNone]
      cases v <;> simp_all [PyVal.isStr, PyVal.isNone]

/-- Closed instantiation of `C6_numeric_string_coercion` at a non-string
value. -/
theorem C6_witness :
    (coerce_parameters false [("n", .int 7)] ⟨some [("n", ⟨some "integer"⟩)]⟩).1
      = [("n", PyVal.int 7)] :=
  (C6_numeric_string_coercion.2.2.1 "n" (.int 7) rfl).1

/-- C1 counterexample: under schema type `array`, the supplied non-sequence
value `42` is NOT turned into a sequence — `list(42)` raises `TypeError`,
which the coercion catches, and the original integer passes through
unchanged, so the coerced result for the parameter is not a sequence. -/
theorem C1_counterexample :
    (coerce_parameters false [("x", .int 42)] ⟨some [("x", ⟨some "array"⟩)]⟩).1
      = [("x", PyVal.int 42)]
    ∧ PyVal.isList (PyVal.int 42) = false :=
  ⟨rfl, rfl⟩

/-- C1 (amended): under schema type `array`, a list passes through
unchanged; an iterable non-list is converted by `list(...)` into the list of
its elements (a string into its one-character strings, a mapping into its
keys) — not into a single-element sequence wrapping the value; and a
non-iterable value (`None`, booleans, numbers) raises `TypeError` inside
the conversion, which is caught, so the original non-sequence value passes
through unchanged. -/
theorem C1_array_coercion (k : String) (v : PyVal) :
    (coerce_parameters false [(k, v)] ⟨some [(k, ⟨some "array"⟩)]⟩).1
      = [(k, match v with
             | .list xs => .list xs
             | .str s => .list (s.data.map fun c => PyVal.str (String.mk [c]))
             | .dict kvs => .list (kvs.map fun kv => PyVal.str kv.1)
             | w => w)] := by
  simp only [coerce_parameters, List.foldl, coerce_param, List.lookup,
    beq_self_eq_true, if_true, coerce_value, PyVal.isNone]
  cases v <;> simp [pyList, PyVal.isNone, Except.map]

/-- C8: calling `initialize` on an already-initialized (`Ready`) instance is
a no-op — it returns normally, performs no remote session call (in
particular no catalogue fetch), and leaves the published action registry and
the whole state unchanged. -/
theorem C8_ready_is_idempotent (cfg : Config) (env : Env) (st : ToolsState)
    (h : st.initialized = true) :
    initialize_fn cfg env st = ⟨.ok (), st, []⟩ := by
  simp [initialize_fn, h]

/-- Closed instantiation of `C8_ready_is_idempotent` on a `Ready` state with
one registered action. -/
theorem C8_witness :
    initialize_fn cfg0 envEmptyOk ⟨true, [("A", mkFunction toolA)]⟩
      = ⟨.ok (), ⟨true, [("A", mkFunction toolA)]⟩, []⟩ :=
  C8_ready_is_idempotent cfg0 envEmptyOk ⟨true, [("A", mkFunction toolA)]⟩ rfl

/-- C7: when building the action for the middle tool of a three-tool
filtered catalogue raises, `initialize` skips that tool, registers actions
for exactly the other two, reaches the initialized (`Ready`) state, and
returns normally. -/
theorem C7_partial_failure_isolation (tA tB tC : Tool)
    (build : Tool → Except String Unit)
    (check : List String → Option (List String) → Option (List String) →
      Except String Unit)
    (eB : String)
    (hA : build tA = .ok ()) (hB : build tB = .error eB) (hC : build tC = .ok ())
    (hcheck : check [tA.name, tB.name, tC.name] Option.none Option.none = .ok ())
    (hAC : tA.name ≠ tC.name) :
    initialize_fn ⟨Option.none, [], Option.none, Option.none⟩
        ⟨some ⟨.ok (), .ok [tA, tB, tC]⟩, check, build⟩ ⟨false, []⟩
      = ⟨.ok (), ⟨true, [(tA.name, mkFunction tA), (tC.name, mkFunction tC)]⟩,
          [.sessionInit, .listTools]⟩ := by
  have hbeq : (tA.name == tC.name) = false := beq_eq_false_iff_ne.mpr hAC
  simp [initialize_fn, should_include_tool, keep_by_name, hcheck, hA, hB, hC,
    dict_set, hbeq]

/-- Closed instantiation of `C7_partial_failure_isolation` on the catalogue
`[A, B, C]` with a builder failing exactly on "B". -/
theorem C7_witness :
    initialize_fn ⟨Option.none, [], Option.none, Option.none⟩
        ⟨some ⟨.ok (), .ok [toolA, toolB, toolC]⟩, fun _ _ _ => .ok (), buildFailB⟩
        ⟨false, []⟩
      = ⟨.ok (), ⟨true, [("A", mkFunction toolA), ("C", mkFunction toolC)]⟩,
          [.sessionInit, .listTools]⟩ :=
  C7_partial_failure_isolation toolA toolB toolC buildFailB (fun _ _ _ => .ok ())
    "boom" rfl rfl rfl rfl (by decide)

/-- C4 counterexample: after `initialize` aborts with an error (here the
catalogue fetch raises "boom"), the instance is NOT in a terminal `Failed`
state — the `_initialized` flag is simply still false, and a second
`initialize` call against a now-working session retries, succeeds and
reaches the initialized (`Ready`) state. -/
theorem C4_counterexample :
    (initialize_fn cfg0 envListFail ⟨false, []⟩).outcome = .error "boom"
    ∧ (initialize_fn cfg0 envListFail ⟨false, []⟩).state = ⟨false, []⟩
    ∧ (initialize_fn cfg0 envEmptyOk
        (initialize_fn cfg0 envListFail ⟨false, []⟩).state).outcome = .ok ()
    ∧ (initialize_fn cfg0 envEmptyOk
        (initialize_fn cfg0 envListFail ⟨false, []⟩).state).state.initialized = true :=
  ⟨rfl, rfl, rfl, rfl⟩

/-- C4 (amended): any unexpected error during a non-initialized
`initialize` pass (missing session, session initialization, catalogue
fetch, or the include/exclude validation) aborts the pass, re-raises the
error to the caller, and leaves the instance state — in particular the
published action registry — exactly unchanged (no partial registration from
the failed pass is visible); the instance is however not terminally failed:
it merely remains uninitialized. -/
theorem C4_error_abort_atomic :
    (∀ (cfg : Config) (env : Env) (st : ToolsState) (e : String),
        (initialize_fn cfg env st).outcome = .error e →
        (initialize_fn cfg env st).state = st)
    ∧ (∀ (cfg : Config) (env : Env) (s : Session) (st : ToolsState) (e : String),
        st.initialized = false → env.session = some s → s.init_result = .ok () →
        s.list_tools_result = .error e →
        (initialize_fn cfg env st).outcome = .error e) := by
  constructor
  · intro cfg env st e h
    by_cases hinit : st.initialized
    · simp [initialize_fn, hinit] at h
    · rcases hs : env.session with _ | s
      · simp [initialize_fn, hinit, hs]
      · rcases hi : s.init_result with ei | u
        · simp [initialize_fn, hinit, hs, hi]
        · cases u
          rcases hl : s.list_tools_result with el | tools
          · simp [initialize_fn, hinit, hs, hi, hl]
          · rcases hc : env.check_tools_filters
                ((tools.filter
                  (should_include_tool cfg.custom_filter cfg.annotation_filters)).map
                  Tool.name)
                cfg.include_tools cfg.exclude_tools with ec | u2
            · simp [initialize_fn, hinit, hs, hi, hl, hc]
            · cases u2
              simp [initialize_fn, hinit, hs, hi, hl, hc] at h
  · intro cfg env s st e h0 hs hi hl
    simp [initialize_fn, h0, hs, hi, hl]

/-- Closed instantiation of `C4_error_abort_atomic` at a failing catalogue
fetch. -/
theorem C4_witness :
    (initialize_fn cfg0 envListFail ⟨false, []⟩).outcome = .error "boom"
    ∧ (initialize_fn cfg0 envListFail ⟨false, []⟩).state = ⟨false, []⟩ :=
  ⟨C4_error_abort_atomic.2 cfg0 envListFail ⟨.ok (), .error "boom"⟩ ⟨false, []⟩
      "boom" rfl rfl rfl rfl,
   C4_error_abort_atomic.1 cfg0 envListFail ⟨false, []⟩ "boom" rfl⟩

end FilteredMCP
